import Mathlib

/-
  Shallow embedding of the taxi-pickups train/evaluate harness
  (taxi_pickups.py and src/models.py).

  Machine reals of the source (Python floats) are embedded as rationals;
  the externally supplied row source (the MySQL table) is embedded as a
  total function from ids to rows, and the range fetch of _getExamples
  (SELECT ... WHERE id BETWEEN a AND b) returns the rows at the ids of
  the inclusive range, empty when the range is empty.
-/

namespace TaxiPickups

/-- One row of the aggregated pickups table: the fields of the data model
that the harness reads (id, num_pickups, zone_id, hour of start_datetime). -/
structure Example where
  id : Int
  num_pickups : Rat
  zone_id : Int
  hour : Nat
deriving DecidableEq

/-- Python int() applied to a rational value: truncation toward zero. -/
def pyInt (q : Rat) : Int := if q < 0 then ⌈q⌉ else ⌊q⌋

/-- The Dataset state: the two split boundaries fixed at construction and
the mutable cursor current_example_id. -/
structure Dataset where
  last_train_id : Int
  last_test_id : Int
  current_example_id : Int
deriving DecidableEq

/-- Embeds Dataset.__init__(train_fraction, dataset_size, table_name):
last_train_id = int(train_fraction * dataset_size), last_test_id =
dataset_size, current_example_id = 1. -/
def Dataset.init (train_fraction : Rat) (dataset_size : Int) : Dataset :=
  { last_train_id := pyInt (train_fraction * (dataset_size : Rat))
  , last_test_id := dataset_size
  , current_example_id := 1 }

/-- Embeds Dataset.hasMoreTrainExamples. -/
def Dataset.hasMoreTrainExamples (d : Dataset) : Bool :=
  d.current_example_id ≤ d.last_train_id

/-- Embeds Dataset.hasMoreTestExamples. -/
def Dataset.hasMoreTestExamples (d : Dataset) : Bool :=
  d.current_example_id ≤ d.last_test_id

/-- Embeds Dataset._getExamples(start_id, num_examples): the inclusive
range fetch of the rows with ids start_id .. start_id + num_examples - 1,
empty when num_examples is not positive (SQL BETWEEN with end below
start). -/
def getExamplesRange (tbl : Int → Example) (start_id : Int) (num_examples : Int) :
    List Example :=
  (List.range num_examples.toNat).map (fun k : Nat => tbl (start_id + (k : Int)))

/-- Embeds Dataset.getTrainExamples(batch_size): truncates batch_size to
last_train_id - current_example_id + 1 when the requested window would
cross last_train_id, fetches, and advances the cursor by the (possibly
reassigned) batch_size. -/
def Dataset.getTrainExamples (tbl : Int → Example) (d : Dataset) (batch_size : Int) :
    List Example × Dataset :=
  let bs := if d.current_example_id + batch_size - 1 > d.last_train_id
            then d.last_train_id - d.current_example_id + 1
            else batch_size
  (getExamplesRange tbl d.current_example_id bs,
   { d with current_example_id := d.current_example_id + bs })

/-- Embeds Dataset.getTestExample(): raises (the spec's OutOfRangeError)
when current_example_id > last_test_id; otherwise fast-forwards the cursor
to last_train_id + 1 when it is still inside the train region, fetches the
single row at the cursor, and advances the cursor by 1. -/
def Dataset.getTestExample (tbl : Int → Example) (d : Dataset) :
    Except String (Example × Dataset) :=
  if d.last_test_id < d.current_example_id then
    Except.error "OutOfRangeError"
  else
    let c := if d.current_example_id ≤ d.last_train_id
             then d.last_train_id + 1
             else d.current_example_id
    Except.ok (tbl c, { d with current_example_id := c + 1 })

/-- One cursor-mutating Dataset operation: a getTrainExamples call with a
batch size, or a getTestExample call. -/
inductive Op where
  | train (batch_size : Int)
  | test
deriving DecidableEq

/-- State transition of one Dataset operation; a raising getTestExample
leaves the state unchanged (the Python raise happens before any
mutation). -/
def Dataset.step (tbl : Int → Example) (d : Dataset) : Op → Dataset
  | Op.train b => (d.getTrainExamples tbl b).2
  | Op.test =>
    match d.getTestExample tbl with
    | Except.ok (_, d2) => d2
    | Except.error _ => d

/-- State after a sequence of Dataset operations. -/
def Dataset.run (tbl : Int → Example) (d : Dataset) (ops : List Op) : Dataset :=
  ops.foldl (fun s op => s.step tbl op) d

/-- A concrete row source for witnesses: the table whose row at id i
carries id i. -/
def tbl0 : Int → Example :=
  fun i => { id := i, num_pickups := 0, zone_id := 0, hour := 0 }

/-- Usage contract of one operation at a state: a getTestExample call is
always admissible; a getTrainExamples call must carry a non-negative
batch size and be made only while hasMoreTrainExamples() is true. -/
def Dataset.okOp (d : Dataset) : Op → Prop
  | Op.train b => 0 ≤ b ∧ d.current_example_id ≤ d.last_train_id
  | Op.test => True

/-- Every operation of the sequence satisfies the usage contract at the
state where it executes. -/
def Dataset.okRun (tbl : Int → Example) (d : Dataset) : List Op → Prop
  | [] => True
  | op :: ops => d.okOp op ∧ Dataset.okRun tbl (d.step tbl op) ops

/-- Number of remaining test-cursor positions; an upper bound on how many
more getTestExample calls can succeed. -/
def testGap (d : Dataset) : Nat :=
  (d.last_test_id + 1 - d.current_example_id).toNat

/-- Number of remaining train-cursor positions; an upper bound on how many
more positive-batch getTrainExamples calls can make progress. -/
def trainGap (d : Dataset) : Nat :=
  (d.last_train_id + 1 - d.current_example_id).toNat

/-- Fuelled loop: while hasMoreTestExamples(), fetch one test example via
getTestExample and collect it. The error branch is unreachable because
getTestExample succeeds exactly while hasMoreTestExamples() is true. -/
def Dataset.drainTest (tbl : Int → Example) : Nat → Dataset → List Example × Dataset
  | 0, d => ([], d)
  | fuel + 1, d =>
    if d.hasMoreTestExamples then
      match d.getTestExample tbl with
      | Except.ok (e, d2) =>
        let r := Dataset.drainTest tbl fuel d2
        (e :: r.1, r.2)
      | Except.error _ => ([], d)
    else ([], d)

/-- Modelled from the spec: Model.generateTestData is called by
Evaluator.evaluate but defined in no source file under src/; per spec
section 4.5 the evaluation loop repeatedly calls Dataset.getTestExample()
while hasMoreTestExamples() is true, and the true label of each collected
example is its num_pickups field. -/
def Model.generateTestData (tbl : Int → Example) (d : Dataset) :
    (List Example × List Rat) × Dataset :=
  let r := Dataset.drainTest tbl (testGap d) d
  ((r.1, r.1.map (fun e => e.num_pickups)), r.2)

/-- Embeds sklearn mean_squared_error as called by evaluatePredictions:
the mean of the squared differences of corresponding entries. -/
def mean_squared_error (true_vals predicted_vals : List Rat) : Rat :=
  (((true_vals.zip predicted_vals).map (fun x => (x.1 - x.2) ^ 2)).sum) /
    ((true_vals.length : Rat))

/-- Embeds Evaluator.evaluatePredictions: asserts the two lists have equal
length (none embeds the AssertionError), then returns RMSD =
sqrt(mean_squared_error). -/
noncomputable def evaluatePredictions (true_num_pickups predicted_num_pickups : List Rat) :
    Option Real :=
  if true_num_pickups.length = predicted_num_pickups.length then
    some (Real.sqrt ((mean_squared_error true_num_pickups predicted_num_pickups : Rat) : Real))
  else
    none

/-- Embeds Evaluator.evaluate: obtains (test_data, true_num_pickups) from
the model's generateTestData, predicts on each test example with the
model's predict capability, and hands both lists to evaluatePredictions. -/
noncomputable def Evaluator.evaluate (tbl : Int → Example) (predict : Example → Rat)
    (d : Dataset) : Option Real :=
  let r := Model.generateTestData tbl d
  let test_data := r.1.1
  let true_num_pickups := r.1.2
  let predicted_num_pickups := test_data.map predict
  evaluatePredictions true_num_pickups predicted_num_pickups

/-- State of a fitted regression model: the injected regression capability
(as the function its predict applies to a vectorized example) and the
feature-extraction capability. The source stores no trained flag. -/
structure RegressionModel where
  regressor : List Rat → Rat
  feature_extractor : Example → List Rat

/-- Embeds RegressionModel.__init__(database, dataset, regressor_model,
sparse): stores the injected regression capability and a fresh
FeatureExtractor; nothing records whether train has been called. -/
def RegressionModel.init (regressor_model : List Rat → Rat)
    (fe : Example → List Rat) : RegressionModel :=
  { regressor := regressor_model, feature_extractor := fe }

/-- Fuelled loop of RegressionModel.train: while hasMoreTrainExamples(),
extend row_dicts with getTrainExamples(TRAIN_BATCH_SIZE). -/
def Dataset.drainTrain (tbl : Int → Example) (batch : Int) :
    Nat → Dataset → List Example × Dataset
  | 0, d => ([], d)
  | fuel + 1, d =>
    if d.hasMoreTrainExamples then
      let r := d.getTrainExamples tbl batch
      let rest := Dataset.drainTrain tbl batch fuel r.2
      (r.1 ++ rest.1, rest.2)
    else ([], d)

/-- Embeds RegressionModel.train: drains all train batches into row_dicts,
vectorizes them, extracts the num_pickups labels, and replaces the
regressor with the fitted estimator returned by the external fit
capability. -/
def RegressionModel.train (m : RegressionModel)
    (fit : List (List Rat) → List Rat → (List Rat → Rat))
    (tbl : Int → Example) (batch : Int) (d : Dataset) : RegressionModel × Dataset :=
  let r := Dataset.drainTrain tbl batch (trainGap d) d
  let X := r.1.map m.feature_extractor
  let y := r.1.map (fun e => e.num_pickups)
  ({ m with regressor := fit X y }, r.2)

/-- Embeds RegressionModel.predict: vectorizes the single example, applies
the current regressor, and clamps the result with max(0.0, y). -/
def RegressionModel.predict (m : RegressionModel) (test_example : Example) : Rat :=
  max 0 (m.regressor (m.feature_extractor test_example))

/-- Embeds Baseline.predict over the abstract row-source response to its
aggregate-average query (the list of avg_num_pickups values of the
returned rows): num_pickups starts at 0.0 and is replaced by the single
average exactly when the result has exactly one row. -/
def Baseline.predict (results : List Rat) : Rat :=
  if results.length = 1 then results.headI else 0

/-- Embeds BetterBaseline.predict over the abstract row-source response to
its hour-and-zone aggregate-average query; the case analysis on the
result list is identical to Baseline.predict. -/
def BetterBaseline.predict (results : List Rat) : Rat :=
  if results.length = 1 then results.headI else 0

/-- The model variants getModel can construct; the source constructs only
Baseline. -/
inductive ModelChoice where
  | baseline
deriving DecidableEq

/-- Outcome of the process entry point: the usage exit, the
unknown-model-name exception, or a completed train-and-evaluate run with
the selected model. -/
inductive MainOutcome where
  | usageExit
  | unknownModel (msg : String)
  | ran (m : ModelChoice)
deriving DecidableEq

/-- Embeds getModel(model_name): returns Baseline() for the name
baseline and raises (the spec's UnknownModelNameError) for every other
name. -/
def getModel (model_name : String) : Except String ModelChoice :=
  if model_name = "baseline" then Except.ok ModelChoice.baseline
  else Except.error ("No model with name " ++ model_name)

/-- Embeds main(args): with fewer than two arguments prints usage and
exits with code 1; otherwise selects the model named by args[1], then
trains and evaluates it. -/
def main (args : List String) : MainOutcome :=
  if args.length < 2 then MainOutcome.usageExit
  else
    match getModel (args.getD 1 "") with
    | Except.ok m => MainOutcome.ran m
    | Except.error msg => MainOutcome.unknownModel msg

end TaxiPickups

namespace TaxiPickups

/-- Helper: the Dataset of the spec's running scenario evaluates to the
state with last_train_id 14, last_test_id 20 and cursor 1. -/
theorem dataset_init_eval : Dataset.init (7/10) 20 = ⟨14, 20, 1⟩ := by
  simp only [Dataset.init, pyInt, Dataset.mk.injEq]
  norm_num

/-- Helper: pyInt agrees with the floor on non-negative arguments. -/
theorem pyInt_nonneg (q : Rat) (h : 0 ≤ q) : pyInt q = ⌊q⌋ := by
  simp only [pyInt, if_neg (not_lt.mpr h)]

/-- Helper: the cursor after getTrainExamples, with the truncation of the
batch size written out. -/
theorem getTrainExamples_cursor (tbl : Int → Example) (d : Dataset) (b : Int) :
    (d.getTrainExamples tbl b).2.current_example_id =
      d.current_example_id +
        (if d.last_train_id < d.current_example_id + b - 1
         then d.last_train_id - d.current_example_id + 1 else b) := rfl

/-- Helper: the batch returned by getTrainExamples, with the truncation of
the batch size written out. -/
theorem getTrainExamples_batch (tbl : Int → Example) (d : Dataset) (b : Int) :
    (d.getTrainExamples tbl b).1 =
      getExamplesRange tbl d.current_example_id
        (if d.last_train_id < d.current_example_id + b - 1
         then d.last_train_id - d.current_example_id + 1 else b) := rfl

/-- Helper: a range fetch returns as many rows as the nonnegative part of
the requested count. -/
theorem getExamplesRange_length (tbl : Int → Example) (s n : Int) :
    (getExamplesRange tbl s n).length = n.toNat := by
  rw [getExamplesRange, List.length_map, List.length_range]

/-- Helper: getTrainExamples does not move the split boundaries. -/
theorem getTrainExamples_bounds (tbl : Int → Example) (d : Dataset) (b : Int) :
    (d.getTrainExamples tbl b).2.last_train_id = d.last_train_id ∧
    (d.getTrainExamples tbl b).2.last_test_id = d.last_test_id := ⟨rfl, rfl⟩

/-- C7 (amended): for every train_fraction in (0,1] and dataset_size > 0
the constructor establishes last_train_id = floor(train_fraction *
dataset_size), last_test_id = dataset_size and cursor 1, and the invariant
0 <= last_train_id <= last_test_id holds (the lower bound 1 <=
last_train_id of the claim fails, see the counterexample); in particular
dataset_size 20 with train_fraction 7/10 gives last_train_id 14 and
last_test_id 20. -/
theorem dataset_init_split (f : Rat) (n : Int) (hf0 : 0 < f) (hf1 : f ≤ 1) (hn : 0 < n) :
    (Dataset.init f n).last_train_id = ⌊f * (n : Rat)⌋ ∧
    (Dataset.init f n).last_test_id = n ∧
    0 ≤ (Dataset.init f n).last_train_id ∧
    (Dataset.init f n).last_train_id ≤ (Dataset.init f n).last_test_id ∧
    (Dataset.init f n).current_example_id = 1 ∧
    Dataset.init (7/10) 20 = ⟨14, 20, 1⟩ := by
  have hn0 : (0 : Rat) ≤ (n : Rat) := by exact_mod_cast hn.le
  have hprod : (0 : Rat) ≤ f * (n : Rat) := mul_nonneg hf0.le hn0
  have hfloor : (Dataset.init f n).last_train_id = ⌊f * (n : Rat)⌋ := pyInt_nonneg _ hprod
  refine ⟨hfloor, rfl, ?_, ?_, rfl, dataset_init_eval⟩
  · rw [hfloor]
    exact Int.floor_nonneg.mpr hprod
  · rw [hfloor]
    show ⌊f * (n : Rat)⌋ ≤ n
    calc ⌊f * (n : Rat)⌋ ≤ ⌊(n : Rat)⌋ :=
          Int.floor_le_floor (mul_le_of_le_one_left hn0 hf1)
      _ = n := Int.floor_intCast n

/-- C7 counterexample: train_fraction 1/2 lies in (0,1] and dataset_size 1
is positive, yet the constructed Dataset has last_train_id = 0, violating
the claimed invariant 1 <= last_train_id. -/
theorem dataset_init_invariant_cex :
    (0 : Rat) < 1/2 ∧ (1/2 : Rat) ≤ 1 ∧ (0 : Int) < 1 ∧
    (Dataset.init (1/2) 1).last_train_id = 0 ∧
    ¬ (1 ≤ (Dataset.init (1/2) 1).last_train_id) := by
  have h : (Dataset.init (1/2) 1).last_train_id = 0 := by
    simp only [Dataset.init, pyInt]
    norm_num
  refine ⟨by norm_num, by norm_num, by norm_num, h, ?_⟩
  rw [h]
  norm_num

/-- C7 witness: the amended theorem applied at the spec's scenario
train_fraction 7/10 and dataset_size 20. -/
theorem dataset_init_split_witness : Dataset.init (7/10) 20 = ⟨14, 20, 1⟩ :=
  (dataset_init_split (7/10) 20 (by norm_num) (by norm_num) (by norm_num)).2.2.2.2.2

/-- C2 (amended): for every batch_size >= 0 (the claim's arbitrary
batch_size fails on negative values, see the counterexample) and every
cursor position inside the train region, getTrainExamples returns only
rows with id <= last_train_id, advances the cursor by exactly the number
of rows returned, and truncates the batch to exactly the remaining train
rows when the requested window would cross last_train_id. -/
theorem getTrainExamples_truncation (tbl : Int → Example) (d : Dataset) (batch_size : Int)
    (htbl : ∀ i, (tbl i).id = i) (hb : 0 ≤ batch_size)
    (hcur : d.current_example_id ≤ d.last_train_id) :
    (∀ e ∈ (d.getTrainExamples tbl batch_size).1, e.id ≤ d.last_train_id) ∧
    (d.getTrainExamples tbl batch_size).2.current_example_id =
      d.current_example_id + ((d.getTrainExamples tbl batch_size).1.length : Int) ∧
    (d.last_train_id < d.current_example_id + batch_size - 1 →
      ((d.getTrainExamples tbl batch_size).1.length : Int) =
        d.last_train_id - d.current_example_id + 1 ∧
      (d.getTrainExamples tbl batch_size).2.current_example_id = d.last_train_id + 1) := by
  rw [getTrainExamples_cursor, getTrainExamples_batch, getExamplesRange_length]
  by_cases hcond : d.last_train_id < d.current_example_id + batch_size - 1
  · simp only [if_pos hcond]
    refine ⟨?_, by omega, fun _ => ⟨by omega, by omega⟩⟩
    intro e he
    simp only [getExamplesRange, List.mem_map, List.mem_range] at he
    obtain ⟨k, hk, rfl⟩ := he
    rw [htbl]
    omega
  · simp only [if_neg hcond]
    refine ⟨?_, by omega, fun h => absurd h hcond⟩
    intro e he
    simp only [getExamplesRange, List.mem_map, List.mem_range] at he
    obtain ⟨k, hk, rfl⟩ := he
    rw [htbl]
    omega

/-- C2 counterexample: at the constructed scenario Dataset (cursor 1,
inside the train region) a getTrainExamples call with batch_size -3
returns zero rows yet moves the cursor from 1 to -2, so the cursor is not
advanced by the number of rows actually returned. -/
theorem getTrainExamples_advance_cex :
    ((Dataset.init (7/10) 20).getTrainExamples tbl0 (-3)).1.length = 0 ∧
    ((Dataset.init (7/10) 20).getTrainExamples tbl0 (-3)).2.current_example_id = -2 ∧
    ¬ (((Dataset.init (7/10) 20).getTrainExamples tbl0 (-3)).2.current_example_id =
        (Dataset.init (7/10) 20).current_example_id +
          ((((Dataset.init (7/10) 20).getTrainExamples tbl0 (-3)).1.length : Nat) : Int)) := by
  rw [dataset_init_eval]
  decide

/-- C2 witness: the amended theorem at the scenario Dataset with a
requested batch of 20 crossing last_train_id 14: exactly the 14 remaining
train rows are returned and the cursor advances to 15. -/
theorem getTrainExamples_truncation_witness :
    (((Dataset.init (7/10) 20).getTrainExamples tbl0 20).1.length : Int) =
      (Dataset.init (7/10) 20).last_train_id -
        (Dataset.init (7/10) 20).current_example_id + 1 ∧
    ((Dataset.init (7/10) 20).getTrainExamples tbl0 20).2.current_example_id =
      (Dataset.init (7/10) 20).last_train_id + 1 := by
  have h := getTrainExamples_truncation tbl0 (Dataset.init (7/10) 20) 20
    (fun i => rfl) (by norm_num) (by rw [dataset_init_eval]; norm_num)
  exact h.2.2 (by rw [dataset_init_eval]; norm_num)

/-- Helper: getTestExample written as a single conditional. -/
theorem getTestExample_eq (tbl : Int → Example) (d : Dataset) :
    d.getTestExample tbl =
      if d.last_test_id < d.current_example_id then Except.error "OutOfRangeError"
      else
        Except.ok
          (tbl (if d.current_example_id ≤ d.last_train_id
                then d.last_train_id + 1 else d.current_example_id),
           { d with current_example_id :=
              (if d.current_example_id ≤ d.last_train_id
               then d.last_train_id + 1 else d.current_example_id) + 1 }) := rfl

/-- Helper: one contract-respecting operation never rewinds the cursor. -/
theorem step_cursor_mono (tbl : Int → Example) (d : Dataset) (op : Op)
    (h : d.okOp op) :
    d.current_example_id ≤ (d.step tbl op).current_example_id := by
  cases op with
  | train b =>
    obtain ⟨hb, hcur⟩ := h
    show d.current_example_id ≤ (d.getTrainExamples tbl b).2.current_example_id
    rw [getTrainExamples_cursor]
    split
    · omega
    · omega
  | test =>
    show d.current_example_id ≤ (Dataset.step tbl d Op.test).current_example_id
    rw [Dataset.step, getTestExample_eq]
    by_cases hoor : d.last_test_id < d.current_example_id
    · rw [if_pos hoor]
    · rw [if_neg hoor]
      show d.current_example_id ≤
        (if d.current_example_id ≤ d.last_train_id
         then d.last_train_id + 1 else d.current_example_id) + 1
      split
      · omega
      · omega

/-- C9 (amended): the cursor is monotonically non-decreasing across every
sequence of getTestExample calls and getTrainExamples calls in which each
getTrainExamples call carries a non-negative batch_size and is made only
while hasMoreTrainExamples() is true; without that usage contract the
claim fails, see the counterexample. -/
theorem cursor_monotone (tbl : Int → Example) (d : Dataset) (ops : List Op)
    (h : d.okRun tbl ops) :
    d.current_example_id ≤ (d.run tbl ops).current_example_id := by
  induction ops generalizing d with
  | nil => exact le_refl _
  | cons op ops ih =>
    obtain ⟨h1, h2⟩ := h
    calc d.current_example_id ≤ (d.step tbl op).current_example_id :=
          step_cursor_mono tbl d op h1
      _ ≤ ((d.step tbl op).run tbl ops).current_example_id := ih _ h2

/-- C9 counterexample: from the constructed scenario Dataset, a
getTestExample call moves the cursor to 16; a following getTrainExamples
call with the default batch_size 1 truncates the batch to -1 and rewinds
the cursor to 15, so the cursor is not monotonically non-decreasing. -/
theorem cursor_monotone_cex :
    (Dataset.run tbl0 (Dataset.init (7/10) 20) [Op.test, Op.train 1]).current_example_id <
      (Dataset.run tbl0 (Dataset.init (7/10) 20) [Op.test]).current_example_id := by
  rw [dataset_init_eval]
  decide

/-- C9 witness: the amended theorem at the scenario Dataset and the
contract-respecting sequence of one batch of 5 train rows followed by one
test fetch. -/
theorem cursor_monotone_witness :
    Dataset.okRun tbl0 ⟨14, 20, 1⟩ [Op.train 5, Op.test] ∧
    (⟨14, 20, 1⟩ : Dataset).current_example_id ≤
      (Dataset.run tbl0 ⟨14, 20, 1⟩ [Op.train 5, Op.test]).current_example_id := by
  have hok : Dataset.okRun tbl0 ⟨14, 20, 1⟩ [Op.train 5, Op.test] :=
    ⟨⟨by norm_num, by norm_num⟩, trivial, trivial⟩
  exact ⟨hok, cursor_monotone tbl0 ⟨14, 20, 1⟩ [Op.train 5, Op.test] hok⟩

/-- Helper: for any state, getTestExample raises exactly when the cursor
has passed last_test_id, every row it returns has id above last_train_id,
and from inside the train region it fast-forwards to last_train_id + 1
before the single-row fetch. -/
theorem getTestExample_spec (tbl : Int → Example) (htbl : ∀ i, (tbl i).id = i)
    (d : Dataset) :
    (d.getTestExample tbl = Except.error "OutOfRangeError" ↔
      d.last_test_id < d.current_example_id) ∧
    (∀ e d2, d.getTestExample tbl = Except.ok (e, d2) → d.last_train_id < e.id) ∧
    (d.current_example_id ≤ d.last_train_id →
      ∀ e d2, d.getTestExample tbl = Except.ok (e, d2) →
        e.id = d.last_train_id + 1 ∧
        d2.current_example_id = d.last_train_id + 2) := by
  rw [getTestExample_eq]
  by_cases hoor : d.last_test_id < d.current_example_id
  · rw [if_pos hoor]
    exact ⟨⟨fun _ => hoor, fun _ => rfl⟩,
      fun e d2 heq => absurd heq (by simp),
      fun _ e d2 heq => absurd heq (by simp)⟩
  · rw [if_neg hoor]
    refine ⟨⟨fun heq => absurd heq (by simp), fun hlt => absurd hlt hoor⟩, ?_, ?_⟩
    · intro e d2 heq
      simp only [Except.ok.injEq, Prod.mk.injEq] at heq
      obtain ⟨rfl, rfl⟩ := heq
      rw [htbl]
      split
      · omega
      · omega
    · intro hcur e d2 heq
      simp only [Except.ok.injEq, Prod.mk.injEq] at heq
      obtain ⟨rfl, rfl⟩ := heq
      rw [htbl, if_pos hcur]
      refine ⟨rfl, ?_⟩
      show d.last_train_id + 1 + 1 = d.last_train_id + 2
      omega

/-- C1: after any sequence of prior operations on a Dataset constructed
with train_fraction in (0,1] and dataset_size > 0, getTestExample raises
(OutOfRangeError) exactly when current_example_id > last_test_id, never
returns a row with id <= last_train_id, and when called with the cursor
still inside the train region it first fast-forwards to last_train_id + 1
and fetches exactly that row. -/
theorem getTestExample_no_leakage (f : Rat) (n : Int) (ops : List Op)
    (tbl : Int → Example) (htbl : ∀ i, (tbl i).id = i)
    (hf0 : 0 < f) (hf1 : f ≤ 1) (hn : 0 < n) :
    ((Dataset.run tbl (Dataset.init f n) ops).getTestExample tbl =
        Except.error "OutOfRangeError" ↔
      (Dataset.run tbl (Dataset.init f n) ops).last_test_id <
        (Dataset.run tbl (Dataset.init f n) ops).current_example_id) ∧
    (∀ e d2, (Dataset.run tbl (Dataset.init f n) ops).getTestExample tbl =
        Except.ok (e, d2) →
      (Dataset.run tbl (Dataset.init f n) ops).last_train_id < e.id) ∧
    ((Dataset.run tbl (Dataset.init f n) ops).current_example_id ≤
        (Dataset.run tbl (Dataset.init f n) ops).last_train_id →
      ∀ e d2, (Dataset.run tbl (Dataset.init f n) ops).getTestExample tbl =
          Except.ok (e, d2) →
        e.id = (Dataset.run tbl (Dataset.init f n) ops).last_train_id + 1 ∧
        d2.current_example_id =
          (Dataset.run tbl (Dataset.init f n) ops).last_train_id + 2) :=
  getTestExample_spec tbl htbl (Dataset.run tbl (Dataset.init f n) ops)

/-- C1 witness: at the scenario Dataset with no prior operations, the
theorem yields that the first test example fetched (the row with id 15)
lies strictly beyond last_train_id = 14. -/
theorem getTestExample_no_leakage_witness :
    (Dataset.run tbl0 (Dataset.init (7/10) 20) []).last_train_id < (tbl0 15).id := by
  have h := getTestExample_no_leakage (7/10) 20 [] tbl0 (fun i => rfl)
    (by norm_num) (by norm_num) (by norm_num)
  refine h.2.1 (tbl0 15) ⟨14, 20, 16⟩ ?_
  show (Dataset.init (7/10) 20).getTestExample tbl0 = Except.ok (tbl0 15, ⟨14, 20, 16⟩)
  rw [dataset_init_eval]
  rfl

/-- C3 (amended): the fitted regression variants clamp negative raw
estimator outputs to 0.0 at the model boundary, so their predict is
non-negative for every model state and input; the two query-average
baselines perform no clamp (see the counterexample), and their predict is
guaranteed non-negative only under the domain assumption that every value
in the aggregate query result is non-negative. -/
theorem predict_nonneg (m : RegressionModel) (e : Example) (results : List Rat)
    (hres : ∀ r ∈ results, 0 ≤ r) :
    0 ≤ m.predict e ∧
    0 ≤ Baseline.predict results ∧
    0 ≤ BetterBaseline.predict results := by
  have hbase : 0 ≤ Baseline.predict results := by
    rw [Baseline.predict]
    split
    · next hlen =>
      obtain ⟨a, rfl⟩ := List.length_eq_one.mp hlen
      exact hres a (List.mem_singleton_self a)
    · exact le_refl 0
  have hbetter : 0 ≤ BetterBaseline.predict results := by
    rw [BetterBaseline.predict]
    split
    · next hlen =>
      obtain ⟨a, rfl⟩ := List.length_eq_one.mp hlen
      exact hres a (List.mem_singleton_self a)
    · exact le_refl 0
  exact ⟨le_max_left 0 _, hbase, hbetter⟩

/-- C3 counterexample: a baseline predict on an aggregate query result
holding the single raw average -5 returns -5 itself: the negative raw
output is not clamped to 0.0 at the model boundary and the returned value
is negative. -/
theorem baseline_predict_clamp_cex :
    Baseline.predict [-5] = -5 ∧ ¬ (0 ≤ Baseline.predict [-5]) := by
  constructor
  · rfl
  · rw [Baseline.predict]
    norm_num

/-- C3 witness: the amended theorem at an untrained regression model whose
estimator outputs the raw value -3 (clamped to a non-negative result) and
at baseline query results holding the single non-negative average 2. -/
theorem predict_nonneg_witness :
    0 ≤ (RegressionModel.init (fun _ => -3) (fun _ => [])).predict (tbl0 1) ∧
    0 ≤ Baseline.predict [2] ∧
    0 ≤ BetterBaseline.predict [2] :=
  predict_nonneg (RegressionModel.init (fun _ => -3) (fun _ => [])) (tbl0 1) [2]
    (by
      intro r hr
      rw [List.mem_singleton] at hr
      rw [hr]
      norm_num)

/-- C5 (amended): a baseline predict performs a two-way case analysis on
the aggregate query result: exactly one row returned yields that row's
average, and every other shape (no rows, but also two or more rows, see
the counterexample) silently yields the 0.0 fallback; no loud failure
exists for the multi-row case. -/
theorem baseline_predict_cases (results : List Rat) :
    (results = [] → Baseline.predict results = 0 ∧ BetterBaseline.predict results = 0) ∧
    (∀ avg, results = [avg] →
      Baseline.predict results = avg ∧ BetterBaseline.predict results = avg) ∧
    (2 ≤ results.length →
      Baseline.predict results = 0 ∧ BetterBaseline.predict results = 0) := by
  refine ⟨?_, ?_, ?_⟩
  · rintro rfl
    exact ⟨rfl, rfl⟩
  · rintro avg rfl
    exact ⟨rfl, rfl⟩
  · intro hlen
    have hne : ¬ results.length = 1 := by omega
    rw [Baseline.predict, BetterBaseline.predict, if_neg hne]
    exact ⟨rfl, rfl⟩

/-- C5 counterexample: on an aggregate query result with the two rows 2
and 3, both baseline predicts return the 0.0 fallback (the same value as
for an empty result) instead of failing loudly. -/
theorem baseline_predict_multirow_cex :
    Baseline.predict [2, 3] = 0 ∧ BetterBaseline.predict [2, 3] = 0 ∧
    Baseline.predict [] = 0 := by
  exact ⟨rfl, rfl, rfl⟩

/-- C5 witness: the amended theorem at the singleton aggregate result 7:
both baseline predicts return the average 7. -/
theorem baseline_predict_cases_witness :
    Baseline.predict [7] = 7 ∧ BetterBaseline.predict [7] = 7 :=
  (baseline_predict_cases [7]).2.1 7 rfl

/-- C6 (amended): RegressionModel.predict performs no trained-state check:
on the model state produced by the constructor with an injected estimator,
before any train call, predict returns the clamped estimator output (a
non-negative value) instead of failing with a ModelNotTrainedError; no
such error exists in the source. -/
theorem regression_predict_untrained (reg : List Rat → Rat)
    (fe : Example → List Rat) (e : Example) :
    (RegressionModel.init reg fe).predict e = max 0 (reg (fe e)) ∧
    0 ≤ (RegressionModel.init reg fe).predict e :=
  ⟨rfl, le_max_left 0 _⟩

/-- C6 counterexample: predict on a regression model fresh from the
constructor (train never called, injected estimator returning the raw
value 3) returns the value 3 rather than raising ModelNotTrainedError. -/
theorem regression_predict_untrained_cex :
    (RegressionModel.init (fun _ => 3) (fun _ => [])).predict (tbl0 1) = 3 := by
  rw [RegressionModel.predict]
  norm_num [RegressionModel.init]

/-- C10 (amended): the entry point recognises only the model name
baseline (constructing the Baseline variant, then training and
evaluating); every other name, including betterbaseline, linear, svr and
dtr (see the counterexample), raises the unknown-model error; and with no
model name argument supplied it exits non-zero with a usage message. -/
theorem main_entry_selection (args : List String) (name : String)
    (hname : ¬ name = "baseline") :
    (args.length < 2 → main args = MainOutcome.usageExit) ∧
    main ["taxi_pickups.py", "baseline"] = MainOutcome.ran ModelChoice.baseline ∧
    getModel name = Except.error ("No model with name " ++ name) ∧
    main ["taxi_pickups.py", name] =
      MainOutcome.unknownModel ("No model with name " ++ name) := by
  have hget : getModel name = Except.error ("No model with name " ++ name) := by
    rw [getModel, if_neg hname]
  refine ⟨?_, rfl, hget, ?_⟩
  · intro h
    rw [main, if_pos h]
  · have hlen : ¬ (["taxi_pickups.py", name].length < 2) := by
      simp
    rw [main, if_neg hlen]
    show (match getModel name with
      | Except.ok m => MainOutcome.ran m
      | Except.error msg => MainOutcome.unknownModel msg) =
      MainOutcome.unknownModel ("No model with name " ++ name)
    rw [hget]

/-- C10 counterexample: each of the four names betterbaseline, linear,
svr and dtr makes the entry point raise the unknown-model error instead
of constructing the corresponding variant. -/
theorem main_model_names_cex :
    main ["taxi_pickups.py", "betterbaseline"] =
      MainOutcome.unknownModel "No model with name betterbaseline" ∧
    main ["taxi_pickups.py", "linear"] =
      MainOutcome.unknownModel "No model with name linear" ∧
    main ["taxi_pickups.py", "svr"] =
      MainOutcome.unknownModel "No model with name svr" ∧
    main ["taxi_pickups.py", "dtr"] =
      MainOutcome.unknownModel "No model with name dtr" := by
  exact ⟨rfl, rfl, rfl, rfl⟩

/-- C10 witness: the amended theorem applied with an empty argument list
and the model name linear. -/
theorem main_entry_selection_witness :
    main [] = MainOutcome.usageExit ∧
    main ["taxi_pickups.py", "linear"] =
      MainOutcome.unknownModel ("No model with name " ++ "linear") := by
  have h := main_entry_selection [] "linear" (by decide)
  exact ⟨h.1 (by norm_num), h.2.2.2⟩

/-- Helper: a list of squares has a non-negative sum. -/
theorem sq_map_sum_nonneg (l : List (Rat × Rat)) :
    0 ≤ (l.map (fun x => (x.1 - x.2) ^ 2)).sum := by
  apply List.sum_nonneg
  intro x hx
  simp only [List.mem_map] at hx
  obtain ⟨y, -, rfl⟩ := hx
  exact sq_nonneg _

/-- Helper: for equally long lists, the sum of squared differences of
corresponding entries vanishes exactly when the lists are equal. -/
theorem sq_sum_zero_iff (t p : List Rat) (h : t.length = p.length) :
    ((t.zip p).map (fun x => (x.1 - x.2) ^ 2)).sum = 0 ↔ t = p := by
  induction t generalizing p with
  | nil =>
    cases p with
    | nil => simp
    | cons b bs => simp at h
  | cons a as ih =>
    cases p with
    | nil => simp at h
    | cons b bs =>
      have hlen : as.length = bs.length := by simpa using h
      simp only [List.zip_cons_cons, List.map_cons, List.sum_cons]
      rw [add_eq_zero_iff_of_nonneg (sq_nonneg _) (sq_map_sum_nonneg _),
        sq_eq_zero_iff, sub_eq_zero, ih bs hlen, List.cons.injEq]

/-- Helper: the mean squared error is non-negative. -/
theorem mean_squared_error_nonneg (t p : List Rat) : 0 ≤ mean_squared_error t p := by
  rw [mean_squared_error]
  exact div_nonneg (sq_map_sum_nonneg _) (by positivity)

/-- Helper: for equally long lists, the mean squared error vanishes
exactly when the lists are equal. -/
theorem mean_squared_error_eq_zero_iff (t p : List Rat) (h : t.length = p.length) :
    mean_squared_error t p = 0 ↔ t = p := by
  rw [mean_squared_error]
  by_cases ht : t = []
  · subst ht
    have hp : p = [] := List.length_eq_zero.mp (by simpa using h.symm)
    subst hp
    simp
  · have hlen : (t.length : Rat) ≠ 0 := by
      have hne : t.length ≠ 0 := fun hz => ht (List.length_eq_zero.mp hz)
      exact_mod_cast hne
    rw [div_eq_zero_iff]
    constructor
    · rintro (hs | hl)
      · exact (sq_sum_zero_iff t p h).mp hs
      · exact absurd hl hlen
    · intro heq
      exact Or.inl ((sq_sum_zero_iff t p h).mpr heq)

/-- C8: under the internally asserted precondition that the true and
predicted lists have equal length, evaluatePredictions computes the RMSD
sqrt(mean((true_i - predicted_i)^2)) over the full pair list; the RMSD is
0 exactly when the predicted list equals the true list elementwise, the
scenario true = [3,5,2], predicted = [3,5,2] gives RMSD 0, and true =
[0,0], predicted = [1,1] gives RMSD 1. -/
theorem evaluatePredictions_rmsd (t p : List Rat) (h : t.length = p.length) :
    evaluatePredictions t p =
      some (Real.sqrt ((mean_squared_error t p : Rat) : Real)) ∧
    (evaluatePredictions t p = some 0 ↔ t = p) ∧
    evaluatePredictions [3, 5, 2] [3, 5, 2] = some 0 ∧
    evaluatePredictions [0, 0] [1, 1] = some 1 := by
  have heval : evaluatePredictions t p =
      some (Real.sqrt ((mean_squared_error t p : Rat) : Real)) := by
    rw [evaluatePredictions, if_pos h]
  refine ⟨heval, ?_, ?_, ?_⟩
  · rw [heval, Option.some_inj, Real.sqrt_eq_zero']
    constructor
    · intro hle
      have hge : (0 : Real) ≤ ((mean_squared_error t p : Rat) : Real) := by
        exact_mod_cast mean_squared_error_nonneg t p
      have hz : ((mean_squared_error t p : Rat) : Real) = 0 := le_antisymm hle hge
      have hz2 : mean_squared_error t p = 0 := by exact_mod_cast hz
      exact (mean_squared_error_eq_zero_iff t p h).mp hz2
    · intro heq
      rw [(mean_squared_error_eq_zero_iff t p h).mpr heq]
      norm_num
  · have hm : mean_squared_error [3, 5, 2] [3, 5, 2] = 0 := by
      norm_num [mean_squared_error]
    rw [evaluatePredictions, if_pos rfl, hm]
    norm_num
  · have hm : mean_squared_error [0, 0] [1, 1] = 1 := by
      norm_num [mean_squared_error]
    rw [evaluatePredictions,
      if_pos (show ([0, 0] : List Rat).length = ([1, 1] : List Rat).length from rfl), hm]
    norm_num

/-- C8 witness: the theorem applied at the spec's two scenario pair
lists. -/
theorem evaluatePredictions_rmsd_witness :
    evaluatePredictions [3, 5, 2] [3, 5, 2] = some 0 ∧
    evaluatePredictions [0, 0] [1, 1] = some 1 := by
  have h := evaluatePredictions_rmsd [3, 5, 2] [3, 5, 2] rfl
  exact ⟨h.2.2.1, h.2.2.2⟩

/-- Helper: hasMoreTestExamples read back as a proposition. -/
theorem hasMoreTestExamples_iff (d : Dataset) :
    d.hasMoreTestExamples = true ↔ d.current_example_id ≤ d.last_test_id := by
  simp [Dataset.hasMoreTestExamples]

/-- Helper: a successful getTestExample strictly shrinks the remaining
test gap and moves neither split boundary. -/
theorem getTestExample_gap (tbl : Int → Example) (d : Dataset) (e : Example)
    (d2 : Dataset) (heq : d.getTestExample tbl = Except.ok (e, d2)) :
    testGap d2 < testGap d ∧ d2.last_test_id = d.last_test_id ∧
    d2.last_train_id = d.last_train_id := by
  rw [getTestExample_eq] at heq
  by_cases hoor : d.last_test_id < d.current_example_id
  · rw [if_pos hoor] at heq
    exact absurd heq (by simp)
  · rw [if_neg hoor] at heq
    simp only [Except.ok.injEq, Prod.mk.injEq] at heq
    obtain ⟨-, rfl⟩ := heq
    refine ⟨?_, rfl, rfl⟩
    simp only [testGap]
    split
    · next hcur => omega
    · next hcur => omega

/-- Helper: the drain-test loop is insensitive to the exact fuel once the
fuel covers the remaining test gap. -/
theorem drainTest_fuel (tbl : Int → Example) :
    ∀ fuel1 fuel2 d, testGap d ≤ fuel1 → testGap d ≤ fuel2 →
      Dataset.drainTest tbl fuel1 d = Dataset.drainTest tbl fuel2 d := by
  intro fuel1
  induction fuel1 with
  | zero =>
    intro fuel2 d h1 h2
    have hmore : d.hasMoreTestExamples = false := by
      rw [Bool.eq_false_iff]
      intro hy
      have := (hasMoreTestExamples_iff d).mp hy
      simp only [testGap] at h1
      omega
    cases fuel2 with
    | zero => rfl
    | succ m =>
      show ([], d) = Dataset.drainTest tbl (m + 1) d
      rw [Dataset.drainTest, hmore]
      simp
  | succ n ih =>
    intro fuel2 d h1 h2
    cases fuel2 with
    | zero =>
      have hmore : d.hasMoreTestExamples = false := by
        rw [Bool.eq_false_iff]
        intro hy
        have := (hasMoreTestExamples_iff d).mp hy
        simp only [testGap] at h2
        omega
      show Dataset.drainTest tbl (n + 1) d = ([], d)
      rw [Dataset.drainTest, hmore]
      simp
    | succ m =>
      rw [Dataset.drainTest, Dataset.drainTest]
      by_cases hmore : d.hasMoreTestExamples
      · rw [hmore]
        simp only [if_true]
        cases hX : d.getTestExample tbl with
        | error msg => rfl
        | ok pr2 =>
          obtain ⟨e, d2⟩ := pr2
          have hgap := (getTestExample_gap tbl d e d2 hX).1
          have hrec : Dataset.drainTest tbl n d2 = Dataset.drainTest tbl m d2 :=
            ih m d2 (by omega) (by omega)
          show (e :: (Dataset.drainTest tbl n d2).1, (Dataset.drainTest tbl n d2).2) =
            (e :: (Dataset.drainTest tbl m d2).1, (Dataset.drainTest tbl m d2).2)
          rw [hrec]
      · rw [Bool.not_eq_true] at hmore
        rw [hmore]
        simp

/-- C4: Evaluator.evaluate takes its example list from the model's
generateTestData, which collects test examples by repeatedly calling
Dataset.getTestExample() while Dataset.hasMoreTestExamples() is true; the
true labels are the num_pickups fields of the collected examples, and the
predicted labels are the model's predict applied to those same examples,
the two lists being handed to evaluatePredictions. -/
theorem evaluator_evaluate_loop (tbl : Int → Example) (predict : Example → Rat)
    (d : Dataset) :
    (d.hasMoreTestExamples = false → (Model.generateTestData tbl d).1.1 = []) ∧
    (d.hasMoreTestExamples = true →
      ∃ e d2, d.getTestExample tbl = Except.ok (e, d2) ∧
        (Model.generateTestData tbl d).1.1 =
          e :: (Model.generateTestData tbl d2).1.1) ∧
    (Model.generateTestData tbl d).1.2 =
      (Model.generateTestData tbl d).1.1.map (fun e => e.num_pickups) ∧
    Evaluator.evaluate tbl predict d =
      evaluatePredictions (Model.generateTestData tbl d).1.2
        ((Model.generateTestData tbl d).1.1.map predict) := by
  refine ⟨?_, ?_, rfl, rfl⟩
  · intro hmore
    have hcur : d.last_test_id < d.current_example_id := by
      by_contra hc
      rw [Bool.eq_false_iff] at hmore
      exact hmore ((hasMoreTestExamples_iff d).mpr (not_lt.mp hc))
    have hgap : testGap d = 0 := by
      simp only [testGap]
      omega
    simp only [Model.generateTestData, hgap, Dataset.drainTest]
  · intro hmore
    have hcur : d.current_example_id ≤ d.last_test_id :=
      (hasMoreTestExamples_iff d).mp hmore
    have hok : d.getTestExample tbl =
        Except.ok
          (tbl (if d.current_example_id ≤ d.last_train_id
                then d.last_train_id + 1 else d.current_example_id),
           { d with current_example_id :=
              (if d.current_example_id ≤ d.last_train_id
               then d.last_train_id + 1 else d.current_example_id) + 1 }) := by
      rw [getTestExample_eq, if_neg (not_lt.mpr hcur)]
    refine ⟨_, _, hok, ?_⟩
    have hgap1 : 1 ≤ testGap d := by
      simp only [testGap]
      omega
    obtain ⟨k, hk⟩ : ∃ k, testGap d = k + 1 :=
      ⟨testGap d - 1, by omega⟩
    have hgap2 := (getTestExample_gap tbl d _ _ hok).1
    rw [hk] at hgap2
    simp only [Model.generateTestData, hk, Dataset.drainTest, hmore, if_true, hok]
    rw [drainTest_fuel tbl k (testGap _) _ (by omega) (le_refl _)]

/-- C4 witness: at the scenario Dataset with cursor 1, the theorem yields
that the collected test-example list starts with the row with id 15 (the
fast-forwarded fetch) followed by the rows collected from the advanced
state with cursor 16. -/
theorem evaluator_evaluate_loop_witness :
    (Model.generateTestData tbl0 ⟨14, 20, 1⟩).1.1 =
      tbl0 15 :: (Model.generateTestData tbl0 ⟨14, 20, 16⟩).1.1 := by
  have h := (evaluator_evaluate_loop tbl0 (fun _ => 0) ⟨14, 20, 1⟩).2.1 (by decide)
  obtain ⟨e, d2, heq, hl⟩ := h
  have hc : Dataset.getTestExample tbl0 ⟨14, 20, 1⟩ =
      Except.ok (tbl0 15, ⟨14, 20, 16⟩) := rfl
  rw [hc] at heq
  simp only [Except.ok.injEq, Prod.mk.injEq] at heq
  obtain ⟨rfl, rfl⟩ := heq
  exact hl

end TaxiPickups
